import Mathlib

/-!
Shallow embedding of `src/src/lib.rs` (taskyland/tracesix): a small logging
facade over the `tracing` ecosystem. The embedding models:

* the five severities of `tracing::Level` together with the two orders that
  matter (the crate's internal `LevelInner` discriminants and the filter
  comparison of `tracing_subscriber`),
* the filter resolution in `Logger::new` (lines 96-120): the env-override
  `EnvFilter::try_from_default_env()`, the `.or_else(EnvFilter::try_new(&level))`
  fallback and the final `.unwrap()`,
* the `once_cell` guarded one-time initialization as a transition on the
  process state `Option PipelineState`,
* the renderer `CustomFormat::format_event` (lines 36-84) with the
  `owo_colors` ANSI escape sequences and the `time` crate format description
  `[day]-[month]-[year] [hour]:[minute]:[second]`,
* the four public emit methods `debug`/`info`/`warn`/`error` (lines 125-151).
-/

namespace Tracesix

/-- The five severities of `tracing::Level`. Constructor order follows the
`LevelInner` discriminants of `tracing_core` (Trace = 0 … Error = 4). -/
inductive Level where
  | trace
  | debug
  | info
  | warn
  | error
deriving DecidableEq, Repr, Fintype

/-- Discriminant of `tracing_core::LevelInner` (Trace = 0, Debug = 1, Info = 2,
Warn = 3, Error = 4). -/
def Level.inner : Level → Nat
  | .trace => 0
  | .debug => 1
  | .info => 2
  | .warn => 3
  | .error => 4

/-- The comparison of `tracing_core::Level`: its `PartialOrd` reverses the
inner discriminants, so that `TRACE` is the greatest (most verbose) level and
`ERROR` the least. `tracingLE a b` is the crate's `a <= b`. -/
def Level.tracingLE (a b : Level) : Bool :=
  b.inner ≤ a.inner

/-- Filter admission as in `tracing_subscriber`: an event passes a level
filter iff `event.level() <= max_level` in the crate's (reversed) order. -/
def filterEnabled (threshold ev : Level) : Bool :=
  Level.tracingLE ev threshold

/-- Importance of a severity in the order of the spec:
TRACE < DEBUG < INFO < WARN < ERROR. -/
def Level.importance : Level → Nat
  | .trace => 0
  | .debug => 1
  | .info => 2
  | .warn => 3
  | .error => 4

/-- ASCII lowercase of one character, by table. -/
def asciiLower : Char → Char
  | 'A' => 'a'
  | 'B' => 'b'
  | 'C' => 'c'
  | 'D' => 'd'
  | 'E' => 'e'
  | 'F' => 'f'
  | 'G' => 'g'
  | 'H' => 'h'
  | 'I' => 'i'
  | 'J' => 'j'
  | 'K' => 'k'
  | 'L' => 'l'
  | 'M' => 'm'
  | 'N' => 'n'
  | 'O' => 'o'
  | 'P' => 'p'
  | 'Q' => 'q'
  | 'R' => 'r'
  | 'S' => 's'
  | 'T' => 't'
  | 'U' => 'u'
  | 'V' => 'v'
  | 'W' => 'w'
  | 'X' => 'x'
  | 'Y' => 'y'
  | 'Z' => 'z'
  | c => c

/-- ASCII-lowercase of a string, character by character (the level
directives are matched case-insensitively). -/
def lowerString (s : String) : String :=
  String.mk (s.data.map asciiLower)

/-- Modelled from the spec: the directive parser of
`tracing_subscriber::EnvFilter` is library code outside this repository. Per
the spec, the recognized level values are the five severity names, with case
rules following the parser's own conventions (case-insensitive). Directives
other than a bare severity name (targets, spans, numeric levels) are outside
this model; a string such as `"???"` fails to parse both here and in the
library. -/
def parseFilter (s : String) : Option Level :=
  match lowerString s with
  | "trace" => some Level.trace
  | "debug" => some Level.debug
  | "info" => some Level.info
  | "warn" => some Level.warn
  | "error" => some Level.error
  | _ => none

/-- The `LoggerOptions` record of `src/src/lib.rs` lines 19-22: two
independently optional fields. -/
structure LoggerOptions where
  level : Option String
  json : Option Bool
deriving DecidableEq, Repr

/-- The configuration-supplied level string exactly as `Logger::new` computes
it (lines 97-102): `options.unwrap_or(LoggerOptions { level: Some("info"),
json: Some(false) })` followed by `opts.level.unwrap_or_else(|| "info")`. -/
def effectiveLevelString (options : Option LoggerOptions) : String :=
  let opts := options.getD { level := some "info", json := some false }
  opts.level.getD "info"

/-- `EnvFilter::try_from_default_env()` as used on line 108: it fails both
when the override variable is absent and when its value does not parse; the
two failure cases are collapsed because `.or_else` catches either. -/
def tryFromDefaultEnv (env : Option String) : Option Level :=
  env.bind parseFilter

/-- The `filter_layer` expression of `Logger::new` lines 108-110 before the
final `.unwrap()`: the env override wins when it parses, otherwise
`EnvFilter::try_new(&level)` on the configuration-supplied string. -/
def filterLayer (env : Option String) (level : String) : Option Level :=
  match tryFromDefaultEnv env with
  | some f => some f
  | none => parseFilter level

/-- The process-wide pipeline installed by the winning `Logger::new` call:
the bound service name (from `CustomFormat { service_name: name.clone() }`)
and the effective threshold. The code reads nothing else from its arguments;
in particular `opts.json` is never consulted, so the state has no mode
field. -/
structure PipelineState where
  serviceName : String
  threshold : Level
deriving DecidableEq, Repr

/-- Body of the `LOGGER_INIT.get_or_init` closure (lines 96-120): resolve the
filter, bind the service name, install the subscriber. `none` means the
closure panics (the `.unwrap()` on line 110); `set_global_default` succeeds on
the process's first installation. -/
def initPipeline (env : Option String) (name : String)
    (options : Option LoggerOptions) : Option PipelineState :=
  match filterLayer env (effectiveLevelString options) with
  | some threshold => some { serviceName := name, threshold := threshold }
  | none => none

/-- The `Logger` handle: a unit struct (line 25) carrying no state. -/
structure Logger where
deriving DecidableEq, Repr

/-- One call of `Logger::new` (lines 93-123) as a transition on the process
state `Option PipelineState` (`none` = `LOGGER_INIT` still empty). The result
is the new process state and `some handle`, or `none` for a panic of the
initializing closure (in which case `once_cell` leaves the cell empty). -/
def loggerNew (env : Option String) (name : String)
    (options : Option LoggerOptions) :
    Option PipelineState → Option PipelineState × Option Logger
  | some ps => (some ps, some {})
  | none =>
    match initPipeline env name options with
    | some ps => (some ps, some {})
    | none => (none, none)

/-- Whether the installed pipeline emits an event of the given severity:
the `EnvFilter` check before the renderer runs. -/
def eventEmitted (ps : PipelineState) (sev : Level) : Bool :=
  filterEnabled ps.threshold sev

/-- Decimal digit character, used to render numbers in timestamps and in the
ANSI escape codes. -/
def digitChar : Nat → Char
  | 0 => '0'
  | 1 => '1'
  | 2 => '2'
  | 3 => '3'
  | 4 => '4'
  | 5 => '5'
  | 6 => '6'
  | 7 => '7'
  | 8 => '8'
  | _ => '9'

/-- Decimal digits of a natural number, most significant first. -/
def natDigits (n : Nat) : List Char :=
  if h : n < 10 then
    [digitChar n]
  else
    natDigits (n / 10) ++ [digitChar (n % 10)]
termination_by n
decreasing_by
  exact Nat.div_lt_self (Nat.lt_of_lt_of_le (by norm_num) (Nat.le_of_not_lt h)) (by norm_num)

/-- Decimal rendering of a natural number. -/
def natStr (n : Nat) : String :=
  String.mk (natDigits n)

/-- Zero padding to a given width, as the `time` crate pads numeric
components (`Padding::Zero` is the default for `[day]`, `[month]`, `[year]`,
`[hour]`, `[minute]`, `[second]`). -/
def padZeros (w : Nat) (s : String) : String :=
  String.mk (List.replicate (w - s.length) '0') ++ s

/-- Two-digit zero padded component. -/
def pad2 (n : Nat) : String :=
  padZeros 2 (natStr n)

/-- Four-digit zero padded component (the `[year]` component). -/
def pad4 (n : Nat) : String :=
  padZeros 4 (natStr n)

/-- A UTC instant as `time::OffsetDateTime` exposes it to the format
description: all six requested components are always available. The renderer
receives it as an argument because `now_utc()` is an ambient effect. -/
structure Timestamp where
  year : Nat
  month : Nat
  day : Nat
  hour : Nat
  minute : Nat
  second : Nat
deriving DecidableEq, Repr

/-- The compile-time constant format description of line 44-46:
`[day]-[month]-[year] [hour]:[minute]:[second]`, rendered over a UTC instant.
Every requested component is present on a `Timestamp`, so the `Result` the
`time` crate returns from `format` is always `Ok`; the renderer's `.unwrap()`
on line 47 therefore never panics and the formatting is total. -/
def formatTimestamp (t : Timestamp) : String :=
  pad2 t.day ++ "-" ++ pad2 t.month ++ "-" ++ pad4 t.year ++ " " ++
    pad2 t.hour ++ ":" ++ pad2 t.minute ++ ":" ++ pad2 t.second

/-- ANSI foreground coloring as `owo_colors` renders it: the escape sequence
selecting the color, the text, then the reset to the default foreground
(`ESC[39m`). -/
def ansiFg (code : Nat) (s : String) : String :=
  "\x1b[" ++ natStr code ++ "m" ++ s ++ "\x1b[39m"

/-- The `owo_colors` color methods used by `format_event`: `red` = 31,
`yellow` = 33, `green` = 32, `cyan` = 36, `purple` is the crate's alias for
magenta = 35, `bright_black` = 90, `bright_blue` = 94,
`bright_magenta` = 95. -/
def red (s : String) : String := ansiFg 31 s

/-- ANSI yellow foreground (`owo_colors::yellow`). -/
def yellow (s : String) : String := ansiFg 33 s

/-- ANSI green foreground (`owo_colors::green`). -/
def green (s : String) : String := ansiFg 32 s

/-- ANSI cyan foreground (`owo_colors::cyan`). -/
def cyan (s : String) : String := ansiFg 36 s

/-- ANSI magenta foreground (`owo_colors::purple`, alias of magenta). -/
def purple (s : String) : String := ansiFg 35 s

/-- ANSI bright black foreground (`owo_colors::bright_black`). -/
def brightBlack (s : String) : String := ansiFg 90 s

/-- ANSI bright blue foreground (`owo_colors::bright_blue`). -/
def brightBlue (s : String) : String := ansiFg 94 s

/-- ANSI bright magenta foreground (`owo_colors::bright_magenta`). -/
def brightMagenta (s : String) : String := ansiFg 95 s

/-- The colored level tag of lines 71-77: the match inside the third
`write!`. -/
def levelTag : Level → String
  | .error => red "ERROR"
  | .warn => yellow "WARN"
  | .info => cyan "INFO"
  | .debug => green "DEBUG"
  | .trace => purple "TRACE"

/-- First `write!` of `format_event` (lines 51-57): dim opening bracket,
bright blue timestamp, dim closing bracket. -/
def timestampPart (ts : Timestamp) : String :=
  brightBlack "[" ++ brightBlue (formatTimestamp ts) ++ brightBlack "]"

/-- Second `write!` of `format_event` (lines 59-65): dim parentheses around
the bright magenta service name. -/
def servicePart (serviceName : String) : String :=
  brightBlack "(" ++ brightMagenta serviceName ++ brightBlack ")"

/-- Third `write!` of `format_event` (lines 67-79): dim brackets around the
colored level tag. -/
def levelPart (level : Level) : String :=
  brightBlack "[" ++ levelTag level ++ brightBlack "]"

/-- `CustomFormat::format_event` (lines 36-84) over an infallible string
writer: the three `write!` segments, the single space, the fields (here the
one message field, as the default field formatter renders it), and the final
`writeln!` newline. -/
def formatEvent (serviceName : String) (ts : Timestamp) (level : Level)
    (message : String) : String :=
  timestampPart ts ++ servicePart serviceName ++ levelPart level ++
    " " ++ message ++ "\n"

/-- The line the installed pipeline writes for an accepted event. The code
installs `CustomFormat` unconditionally (line 112), so this is the renderer
for every pipeline the code can build, whatever `opts.json` said. -/
def renderedLine (ps : PipelineState) (ts : Timestamp) (level : Level)
    (message : String) : String :=
  formatEvent ps.serviceName ts level message

/-- One emitted event as the four public methods produce it: a severity and
the single message field. -/
structure Event where
  level : Level
  message : String
deriving DecidableEq, Repr

/-- `Logger::debug` (lines 127-130): `tracing::debug!("{}", message)`. -/
def Logger.debug (_ : Logger) (message : String) : Event :=
  { level := Level.debug, message := message }

/-- `Logger::info` (lines 134-137): `tracing::info!("{}", message)`. -/
def Logger.info (_ : Logger) (message : String) : Event :=
  { level := Level.info, message := message }

/-- `Logger::warn` (lines 141-144): `tracing::warn!("{}", message)`. -/
def Logger.warn (_ : Logger) (message : String) : Event :=
  { level := Level.warn, message := message }

/-- `Logger::error` (lines 148-151): `tracing::error!("{}", message)`. -/
def Logger.error (_ : Logger) (message : String) : Event :=
  { level := Level.error, message := message }

/-- The public emit operations of `impl Logger` (lines 125-151), in source
order. These are all the `#[napi]` methods besides the constructor. -/
def loggerEmitOps : List (Logger → String → Event) :=
  [Logger.debug, Logger.info, Logger.warn, Logger.error]

/-- Upper-case severity name as the spec's plain-text format describes the
level tag. -/
def specLevelName : Level → String
  | .trace => "TRACE"
  | .debug => "DEBUG"
  | .info => "INFO"
  | .warn => "WARN"
  | .error => "ERROR"

/-- The spec's fixed color mapping for the level tag: ERROR=red, WARN=yellow,
INFO=cyan, DEBUG=green, TRACE=purple. -/
def specLevelColor : Level → String → String
  | .error => red
  | .warn => yellow
  | .info => cyan
  | .debug => green
  | .trace => purple

/-- The spec's timestamp text: `DD-MM-YYYY HH:MM:SS`. -/
def specTimestampText (t : Timestamp) : String :=
  pad2 t.day ++ "-" ++ pad2 t.month ++ "-" ++ pad4 t.year ++ " " ++
    pad2 t.hour ++ ":" ++ pad2 t.minute ++ ":" ++ pad2 t.second

/-- The plain-text line as the spec's words describe it, assembled left to
right: `[` + timestamp + `]` + `(` + service name + `)` + `[` + upper-case
level tag + `]` + one space + message + newline, with brackets and
parentheses bright-black, the timestamp bright-blue, the service name
bright-magenta, and the tag colored by `specLevelColor`. -/
def formatEventSpec (serviceName : String) (ts : Timestamp) (level : Level)
    (message : String) : String :=
  brightBlack "[" ++ brightBlue (specTimestampText ts) ++ brightBlack "]" ++
    brightBlack "(" ++ brightMagenta serviceName ++ brightBlack ")" ++
    brightBlack "[" ++ specLevelColor level (specLevelName level) ++
    brightBlack "]" ++ " " ++ message ++ "\n"

theorem digitChar_ne_newline (n : Nat) : digitChar n ≠ '\n' := by
  unfold digitChar
  split <;> decide

theorem newline_not_mem_natDigits (n : Nat) : '\n' ∉ natDigits n := by
  induction n using Nat.strong_induction_on with
  | _ n ih =>
    rw [natDigits]
    split
    · intro hmem
      rw [List.mem_singleton] at hmem
      exact digitChar_ne_newline n hmem.symm
    · intro hmem
      rw [List.mem_append] at hmem
      rcases hmem with hmem | hmem
      · have hlt : n / 10 < n := by
          apply Nat.div_lt_self
          · omega
          · omega
        exact ih (n / 10) hlt hmem
      · rw [List.mem_singleton] at hmem
        exact digitChar_ne_newline (n % 10) hmem.symm

theorem newline_not_mem_natStr (n : Nat) : '\n' ∉ (natStr n).data :=
  newline_not_mem_natDigits n

theorem nlFree_append {s t : String} (hs : '\n' ∉ s.data)
    (ht : '\n' ∉ t.data) : '\n' ∉ (s ++ t).data := by
  rw [String.data_append, List.mem_append]
  rintro (h | h)
  · exact hs h
  · exact ht h

theorem nlFree_padZeros {w : Nat} {s : String} (hs : '\n' ∉ s.data) :
    '\n' ∉ (padZeros w s).data := by
  unfold padZeros
  apply nlFree_append _ hs
  intro hmem
  rw [List.mem_replicate] at hmem
  exact absurd hmem.2 (by decide)

theorem nlFree_pad2 (n : Nat) : '\n' ∉ (pad2 n).data :=
  nlFree_padZeros (newline_not_mem_natStr n)

theorem nlFree_pad4 (n : Nat) : '\n' ∉ (pad4 n).data :=
  nlFree_padZeros (newline_not_mem_natStr n)

theorem nlFree_ansiFg {code : Nat} {s : String} (hs : '\n' ∉ s.data) :
    '\n' ∉ (ansiFg code s).data := by
  unfold ansiFg
  exact nlFree_append (nlFree_append (nlFree_append (nlFree_append
    (by decide) (newline_not_mem_natStr code)) (by decide)) hs) (by decide)

theorem nlFree_formatTimestamp (ts : Timestamp) :
    '\n' ∉ (formatTimestamp ts).data := by
  unfold formatTimestamp
  exact nlFree_append (nlFree_append (nlFree_append (nlFree_append
    (nlFree_append (nlFree_append (nlFree_append (nlFree_append
      (nlFree_append (nlFree_append (nlFree_pad2 ts.day) (by decide))
        (nlFree_pad2 ts.month)) (by decide)) (nlFree_pad4 ts.year))
      (by decide)) (nlFree_pad2 ts.hour)) (by decide))
    (nlFree_pad2 ts.minute)) (by decide)) (nlFree_pad2 ts.second)

theorem nlFree_levelTag (level : Level) : '\n' ∉ (levelTag level).data := by
  cases level <;>
    exact nlFree_ansiFg (by decide)

theorem nlFree_timestampPart (ts : Timestamp) :
    '\n' ∉ (timestampPart ts).data := by
  unfold timestampPart
  exact nlFree_append (nlFree_append (nlFree_ansiFg (by decide))
    (nlFree_ansiFg (nlFree_formatTimestamp ts))) (nlFree_ansiFg (by decide))

theorem nlFree_servicePart {name : String} (hn : '\n' ∉ name.data) :
    '\n' ∉ (servicePart name).data := by
  unfold servicePart
  exact nlFree_append (nlFree_append (nlFree_ansiFg (by decide))
    (nlFree_ansiFg hn)) (nlFree_ansiFg (by decide))

theorem nlFree_levelPart (level : Level) : '\n' ∉ (levelPart level).data := by
  unfold levelPart
  exact nlFree_append (nlFree_append (nlFree_ansiFg (by decide))
    (nlFree_levelTag level)) (nlFree_ansiFg (by decide))

/-- C1: the claim says a first construction call with `json = true` makes
every accepted event render as a single-line JSON object with no ANSI escape
sequences. The code never reads `opts.json`: the pipeline built by such a
call still renders through `CustomFormat`, and the line it writes for an
accepted INFO event contains the ANSI escape character — contradicting the
code's own doc comment for the `json` option. -/
theorem C1_json_option_ignored :
    loggerNew none "svc" (some { level := some "info", json := some true })
        none
      = (some { serviceName := "svc", threshold := Level.info }, some {}) ∧
    (renderedLine { serviceName := "svc", threshold := Level.info }
        { year := 2024, month := 1, day := 2, hour := 3, minute := 4,
          second := 5 }
        Level.info "hi").data.contains '\x1b' = true := by
  constructor
  · rfl
  · decide

/-- C2 counterexample: with the override present but unparseable (`"???"`)
and a valid configuration level (`"info"`), the initializing call does not
abort — it returns a handle and installs the pipeline at the configuration
level, refuting the claim that an unrecognized override is fatal regardless
of the configuration level. -/
theorem C2_counterexample :
    loggerNew (some "???") "svc" (some { level := some "info", json := none })
        none
      = (some { serviceName := "svc", threshold := Level.info }, some {}) := by
  rfl

/-- C2 amended: when the override variable is present but does not parse,
initialization falls back to the configuration-supplied level; if that level
parses, the call succeeds with the configuration level as threshold (it
aborts only when the fallback fails too, cf. C10). -/
theorem C2_amended_fallback (env : String) (options : Option LoggerOptions)
    (l : Level) (h1 : parseFilter env = none)
    (h2 : parseFilter (effectiveLevelString options) = some l) :
    ∀ name, loggerNew (some env) name options none
      = (some { serviceName := name, threshold := l }, some {}) := by
  intro name
  unfold loggerNew initPipeline filterLayer tryFromDefaultEnv
  simp [h1, h2]

/-- C2 witness: the amended statement at override `"???"` and configuration
level `"warn"`. -/
theorem C2_amended_fallback_witness :
    loggerNew (some "???") "api" (some { level := some "warn", json := some true })
        none
      = (some { serviceName := "api", threshold := Level.warn }, some {}) :=
  C2_amended_fallback "???" (some { level := some "warn", json := some true })
    Level.warn (by decide) (by decide) "api"

/-- C3: once the cell is initialized, every later `Logger::new` call — with
any override, name and options — returns a handle and leaves the pipeline
state exactly as it was; and the state produced by the first call is exactly
what that call's own arguments determine through `initPipeline`. -/
theorem C3_first_call_wins :
    (∀ env name options ps,
        loggerNew env name options (some ps) = (some ps, some {})) ∧
    (∀ env name options,
        (loggerNew env name options none).1 = initPipeline env name options) := by
  constructor
  · intro env name options ps
    rfl
  · intro env name options
    unfold loggerNew
    cases h : initPipeline env name options <;> simp [h]

/-- C4: when the override variable parses, its value is the effective
threshold and the configuration (including its level) is ignored: the
resulting pipeline state does not depend on `options` at all. -/
theorem C4_override_precedence (o : String) (l : Level)
    (h : parseFilter o = some l) (name : String)
    (options : Option LoggerOptions) :
    initPipeline (some o) name options
      = some { serviceName := name, threshold := l } := by
  unfold initPipeline filterLayer tryFromDefaultEnv
  simp [h]

/-- C4 witness: override `"warn"` against configuration level `"trace"`:
the pipeline threshold is WARN, an INFO event is dropped and a WARN event is
emitted. -/
theorem C4_override_precedence_witness :
    initPipeline (some "warn") "api"
        (some { level := some "trace", json := none })
      = some { serviceName := "api", threshold := Level.warn } ∧
    eventEmitted { serviceName := "api", threshold := Level.warn }
        Level.info = false ∧
    eventEmitted { serviceName := "api", threshold := Level.warn }
        Level.warn = true :=
  ⟨C4_override_precedence "warn" Level.warn (by decide) "api"
      (some { level := some "trace", json := none }),
    by decide, by decide⟩

/-- C5: the renderer's output coincides, for every service name, timestamp,
severity and message, with the line the spec describes: bright-black
brackets and parentheses, bright-blue `DD-MM-YYYY HH:MM:SS` timestamp,
bright-magenta service name, the upper-case level tag colored ERROR=red,
WARN=yellow, INFO=cyan, DEBUG=green, TRACE=purple, one space, the message,
and a trailing newline. -/
theorem C5_plain_text_format (serviceName : String) (ts : Timestamp)
    (level : Level) (message : String) :
    formatEvent serviceName ts level message
      = formatEventSpec serviceName ts level message := by
  apply String.ext
  cases level <;>
    simp [formatEvent, formatEventSpec, timestampPart, servicePart,
      levelPart, formatTimestamp, specTimestampText, levelTag,
      specLevelColor, specLevelName, String.data_append, List.append_assoc]

/-- C6 counterexample: no emit operation of the public surface produces a
TRACE event — the `impl Logger` block only has `debug`, `info`, `warn` and
`error` methods. -/
theorem C6_counterexample :
    ¬ ∃ op, op ∈ loggerEmitOps ∧ (op {} "m").level = Level.trace := by
  rintro ⟨op, hop, hlvl⟩
  simp only [loggerEmitOps, List.mem_cons, List.not_mem_nil, or_false] at hop
  rcases hop with h | h | h | h <;> subst h <;> exact absurd hlvl (by decide)

/-- C6 amended: the public surface exposes emit operations at exactly the
four severities DEBUG, INFO, WARN and ERROR (methods `debug`, `info`,
`warn`, `error`); there is no TRACE emit operation. -/
theorem C6_four_emit_ops :
    ∀ lg m, loggerEmitOps.map (fun op => op lg m)
      = [{ level := Level.debug, message := m },
         { level := Level.info, message := m },
         { level := Level.warn, message := m },
         { level := Level.error, message := m }] := by
  intro lg m
  rfl

/-- C7: the filter is a cut of the severity order: an event passes iff its
importance is at least the threshold's, and passing is monotone in
importance. -/
theorem C7_threshold_cut (t s1 s2 : Level) :
    (filterEnabled t s1 = true ↔ t.importance ≤ s1.importance) ∧
    (s1.importance < s2.importance → filterEnabled t s1 = true →
      filterEnabled t s2 = true) := by
  revert t s1 s2
  decide

/-- C7 witness: with threshold INFO, WARN passes and importance WARN <
importance ERROR, so ERROR passes too. -/
theorem C7_threshold_cut_witness :
    filterEnabled Level.info Level.error = true :=
  (C7_threshold_cut Level.info Level.warn Level.error).2 (by decide)
    (by decide)

/-- C8: rendering an accepted event is total — the embedded `format_event`
is a function defined on every input, and the `.unwrap()` of line 47 cannot
fire because the constant format description only requests components a UTC
instant always carries — and it writes exactly one line: for every
well-formed event (service name and message free of newlines) the output is
a newline-free line followed by exactly one trailing newline. -/
theorem C8_render_one_line (name : String) (ts : Timestamp) (level : Level)
    (msg : String) (hn : '\n' ∉ name.data) (hm : '\n' ∉ msg.data) :
    ∃ line, formatEvent name ts level msg = line ++ "\n" ∧
      '\n' ∉ line.data := by
  refine ⟨timestampPart ts ++ servicePart name ++ levelPart level ++ " "
    ++ msg, rfl, ?_⟩
  exact nlFree_append (nlFree_append (nlFree_append (nlFree_append
    (nlFree_timestampPart ts) (nlFree_servicePart hn))
    (nlFree_levelPart level)) (by decide)) hm

/-- C8 witness: the scenario of the spec, `name = "api"`,
`message = "disk low"`, at a concrete timestamp and severity WARN. -/
theorem C8_render_one_line_witness :
    ∃ line, formatEvent "api"
        { year := 2024, month := 5, day := 7, hour := 12, minute := 30,
          second := 59 } Level.warn "disk low" = line ++ "\n" ∧
      '\n' ∉ line.data :=
  C8_render_one_line "api" _ Level.warn "disk low" (by decide) (by decide)

/-- C10: the initializing `Logger::new` call panics exactly when the
override variable is absent or unparseable and the configuration-supplied
level string (after the two-stage default to `"info"`) also fails to parse;
in every other case it returns a handle. -/
theorem C10_panic_condition (env : Option String) (name : String)
    (options : Option LoggerOptions) :
    (loggerNew env name options none).2 = none ↔
      tryFromDefaultEnv env = none ∧
        parseFilter (effectiveLevelString options) = none := by
  unfold loggerNew initPipeline filterLayer
  cases h1 : tryFromDefaultEnv env <;>
    cases h2 : parseFilter (effectiveLevelString options) <;>
      simp [h1, h2]

end Tracesix
